import Mathlib

/-!
Verification of the earthquake-visualizer pipeline: the data model
(App.tsx lines 4-22), the color/radius mapper (App.tsx magToColor,
MapView.tsx radius), the filter stage (App.tsx filtered), the legend
(App.tsx MagnitudeLegend) and the application state controller
(App.tsx loadData and the threshold control).

Magnitudes are JavaScript numbers in the source; they are modelled as
rationals, which is exact for every constant appearing in the code
(thresholds 2, 4, 5, 6, 7, legend offset 0.01, slider step 0.1).
-/

namespace EqViz

/-- Geometry of one feature: App.tsx lines 12-15, coordinates ordered
longitude, latitude, depth. -/
structure GeometryPoint where
  longitude : ℚ
  latitude : ℚ
  depth : ℚ
deriving DecidableEq, Repr

/-- Properties of one feature: App.tsx lines 6-11. `mag` and `place`
are nullable in the source. -/
structure FeatureProperties where
  mag : Option ℚ
  place : Option String
  time : ℤ
  url : String
deriving DecidableEq, Repr

/-- One earthquake event record: App.tsx lines 4-16 (EarthquakeFeature). -/
structure EarthquakeFeature where
  id : String
  properties : FeatureProperties
  geometry : GeometryPoint
deriving DecidableEq, Repr

/-- The magnitude-to-color cascade: App.tsx lines 122-130 (magToColor).
A null magnitude yields the neutral gray; otherwise the first matching
threshold, checked from 7 down, wins. -/
def magToColor : Option ℚ → String
  | none => "#9aa0a6"
  | some m =>
    if 7 ≤ m then "#7f0000"
    else if 6 ≤ m then "#b30000"
    else if 5 ≤ m then "#d7301f"
    else if 4 ≤ m then "#ef6548"
    else if 2 ≤ m then "#fc8d59"
    else "#fdbb84"

/-- The value `f.properties.mag ?? -Infinity` from App.tsx line 57:
a null magnitude becomes negative infinity, modelled by the bottom
element of `WithBot ℚ`. -/
def magOrNegInf : Option ℚ → WithBot ℚ
  | none => ⊥
  | some m => (m : WithBot ℚ)

/-- The filter predicate of App.tsx line 57:
`(f.properties.mag ?? -Infinity) >= minMag`. -/
def passesThreshold (mag : Option ℚ) (minMag : ℚ) : Bool :=
  decide ((minMag : WithBot ℚ) ≤ magOrNegInf mag)

/-- The filter stage: App.tsx lines 56-58 (the `filtered` memo). -/
def filtered (features : List EarthquakeFeature) (minMag : ℚ) :
    List EarthquakeFeature :=
  features.filter (fun f => passesThreshold f.properties.mag minMag)

/-- The marker radius: MapView.tsx line 31,
`Math.max(3, (mag ?? 0) * 2 + 3)`. -/
def radiusFor (mag : Option ℚ) : ℚ :=
  max 3 ((mag.getD 0) * 2 + 3)

/-- The legend band stops: App.tsx line 102 (`stops`). -/
def legendStops : List ℚ := [0, 2, 4, 5, 6, 7]

/-- The legend swatch color for the band starting at stop `m`:
App.tsx line 112, `magToColor(m + 0.01)` — the legend calls the mapper
itself rather than hardcoding colors. -/
def legendSwatch (m : ℚ) : String :=
  magToColor (some (m + 1 / 100))

/- Band helper lemmas for the magToColor cascade. -/

theorem magToColor_of_ge7 (m : ℚ) (h : 7 ≤ m) :
    magToColor (some m) = "#7f0000" := by
  simp only [magToColor]
  rw [if_pos h]

theorem magToColor_of_band6 (m : ℚ) (h1 : 6 ≤ m) (h2 : m < 7) :
    magToColor (some m) = "#b30000" := by
  simp only [magToColor]
  rw [if_neg (by linarith), if_pos h1]

theorem magToColor_of_band5 (m : ℚ) (h1 : 5 ≤ m) (h2 : m < 6) :
    magToColor (some m) = "#d7301f" := by
  simp only [magToColor]
  rw [if_neg (by linarith), if_neg (by linarith), if_pos h1]

theorem magToColor_of_band4 (m : ℚ) (h1 : 4 ≤ m) (h2 : m < 5) :
    magToColor (some m) = "#ef6548" := by
  simp only [magToColor]
  rw [if_neg (by linarith), if_neg (by linarith), if_neg (by linarith),
    if_pos h1]

theorem magToColor_of_band2 (m : ℚ) (h1 : 2 ≤ m) (h2 : m < 4) :
    magToColor (some m) = "#fc8d59" := by
  simp only [magToColor]
  rw [if_neg (by linarith), if_neg (by linarith), if_neg (by linarith),
    if_neg (by linarith), if_pos h1]

theorem magToColor_of_lt2 (m : ℚ) (h : m < 2) :
    magToColor (some m) = "#fdbb84" := by
  simp only [magToColor]
  rw [if_neg (by linarith), if_neg (by linarith), if_neg (by linarith),
    if_neg (by linarith), if_neg (by linarith)]

/-- C2: magToColor is a strict ordered cascade: null maps to neutral
gray, and for non-null m the bands are m ≥ 7 deep red, 6 ≤ m < 7 red,
5 ≤ m < 6 red-orange, 4 ≤ m < 5 orange, 2 ≤ m < 4 light orange, and
m < 2 (negatives included) pale orange; at a boundary such as m = 5
the higher band wins. -/
theorem magToColor_bands :
    magToColor none = "#9aa0a6" ∧
    (∀ m : ℚ, 7 ≤ m → magToColor (some m) = "#7f0000") ∧
    (∀ m : ℚ, 6 ≤ m → m < 7 → magToColor (some m) = "#b30000") ∧
    (∀ m : ℚ, 5 ≤ m → m < 6 → magToColor (some m) = "#d7301f") ∧
    (∀ m : ℚ, 4 ≤ m → m < 5 → magToColor (some m) = "#ef6548") ∧
    (∀ m : ℚ, 2 ≤ m → m < 4 → magToColor (some m) = "#fc8d59") ∧
    (∀ m : ℚ, m < 2 → magToColor (some m) = "#fdbb84") ∧
    magToColor (some 5) = "#d7301f" :=
  ⟨rfl, magToColor_of_ge7, magToColor_of_band6, magToColor_of_band5,
    magToColor_of_band4, magToColor_of_band2, magToColor_of_lt2,
    magToColor_of_band5 5 (by norm_num) (by norm_num)⟩

/-- C1: filtered returns exactly the order-preserving subsequence of
the events whose (magnitude ?? -infinity) meets the threshold — it is
a sublist, an event belongs to it iff it belongs to the input and
passes, and multiplicities of passing events are preserved; at
threshold 0 a null-magnitude event is excluded and a magnitude-0 event
is included. -/
theorem filtered_spec (events : List EarthquakeFeature) (t : ℚ) :
    (filtered events t).Sublist events ∧
    (∀ f, f ∈ filtered events t ↔
      f ∈ events ∧ (t : WithBot ℚ) ≤ magOrNegInf f.properties.mag) ∧
    (∀ f, passesThreshold f.properties.mag t = true →
      (filtered events t).count f = events.count f) ∧
    (∀ f, f.properties.mag = none → f ∉ filtered events 0) ∧
    (∀ f, f ∈ events → f.properties.mag = some 0 → f ∈ filtered events 0) := by
  refine ⟨List.filter_sublist events, fun f => ?_, fun f hf => ?_, ?_, ?_⟩
  · rw [filtered, List.mem_filter, passesThreshold, decide_eq_true_eq]
  · exact List.count_filter hf
  · intro f hnone hmem
    rw [filtered, List.mem_filter] at hmem
    rw [passesThreshold, hnone] at hmem
    have : ¬ ((0 : ℚ) : WithBot ℚ) ≤ (⊥ : WithBot ℚ) :=
      WithBot.not_coe_le_bot 0
    simp only [magOrNegInf, decide_eq_true_eq] at hmem
    exact this hmem.2
  · intro f hmem hzero
    rw [filtered, List.mem_filter]
    refine ⟨hmem, ?_⟩
    rw [passesThreshold, hzero]
    simp only [magOrNegInf, decide_eq_true_eq]
    exact le_refl _

/-- C5: the marker radius equals max(3, (mag ?? 0) * 2 + 3), so it is
at least 3 for every input (null treated as 0, all negatives included)
and grows linearly with the magnitude with no upper cap. -/
theorem radiusFor_spec :
    (∀ mag : Option ℚ, radiusFor mag = max 3 ((mag.getD 0) * 2 + 3)) ∧
    (∀ mag : Option ℚ, 3 ≤ radiusFor mag) ∧
    radiusFor none = 3 ∧
    (∀ m : ℚ, 0 ≤ m → radiusFor (some m) = m * 2 + 3) ∧
    (∀ c : ℚ, ∃ m : ℚ, c < radiusFor (some m)) := by
  refine ⟨fun mag => rfl, fun mag => le_max_left _ _, by norm_num [radiusFor],
    fun m hm => ?_, fun c => ⟨max 0 c, ?_⟩⟩
  · rw [radiusFor, Option.getD_some, max_eq_right (by linarith)]
  · have h0 : (0 : ℚ) ≤ max 0 c := le_max_left 0 c
    have hc : c ≤ max 0 c := le_max_right 0 c
    have : max 0 c * 2 + 3 ≤ radiusFor (some (max 0 c)) := by
      rw [radiusFor, Option.getD_some]
      exact le_max_right _ _
    linarith

/-- C9: every legend swatch is computed by calling the mapper itself
at stop + 0.01, and for each band stop in legendStops = [0,2,4,5,6,7]
the swatch equals magToColor of every magnitude inside that band. -/
theorem legend_swatch_spec :
    legendStops = [0, 2, 4, 5, 6, 7] ∧
    (∀ m : ℚ, legendSwatch m = magToColor (some (m + 1 / 100))) ∧
    (∀ x : ℚ, 0 ≤ x → x < 2 → legendSwatch 0 = magToColor (some x)) ∧
    (∀ x : ℚ, 2 ≤ x → x < 4 → legendSwatch 2 = magToColor (some x)) ∧
    (∀ x : ℚ, 4 ≤ x → x < 5 → legendSwatch 4 = magToColor (some x)) ∧
    (∀ x : ℚ, 5 ≤ x → x < 6 → legendSwatch 5 = magToColor (some x)) ∧
    (∀ x : ℚ, 6 ≤ x → x < 7 → legendSwatch 6 = magToColor (some x)) ∧
    (∀ x : ℚ, 7 ≤ x → legendSwatch 7 = magToColor (some x)) := by
  refine ⟨rfl, fun m => rfl, fun x h1 h2 => ?_, fun x h1 h2 => ?_,
    fun x h1 h2 => ?_, fun x h1 h2 => ?_, fun x h1 h2 => ?_, fun x h1 => ?_⟩
  · rw [legendSwatch, magToColor_of_lt2 _ (by norm_num),
      magToColor_of_lt2 x h2]
  · rw [legendSwatch, magToColor_of_band2 _ (by norm_num) (by norm_num),
      magToColor_of_band2 x h1 h2]
  · rw [legendSwatch, magToColor_of_band4 _ (by norm_num) (by norm_num),
      magToColor_of_band4 x h1 h2]
  · rw [legendSwatch, magToColor_of_band5 _ (by norm_num) (by norm_num),
      magToColor_of_band5 x h1 h2]
  · rw [legendSwatch, magToColor_of_band6 _ (by norm_num) (by norm_num),
      magToColor_of_band6 x h1 h2]
  · rw [legendSwatch, magToColor_of_ge7 _ (by norm_num),
      magToColor_of_ge7 x h1]

/-- One successful fetch result: the decoded feature sequence plus the
generation timestamp (spec section 3, decoded in App.tsx lines 39-41). -/
structure FeedSnapshot where
  features : List EarthquakeFeature
  generatedAtMs : ℤ
deriving DecidableEq, Repr

/-- The failure taxonomy of the feed client (spec section 7), as
raised by App.tsx lines 37-39: the fetch call rejecting (no response),
a non-ok HTTP status (line 38), or res.json() rejecting on a body that
is not valid JSON (line 39). -/
inductive FetchError where
  | network
  | http (status : ℕ)
  | parse
deriving DecidableEq, Repr

/-- The message carried by each failure, read by App.tsx line 43
(e.message). The HTTP message is built at App.tsx line 38; the network
and parse messages are supplied by the browser runtime and are
modelled as fixed representative strings. -/
def FetchError.message : FetchError → String
  | .network => "Failed to fetch"
  | .http status => "HTTP " ++ toString status
  | .parse => "Unexpected end of JSON input"

/-- The body of a received HTTP response as App.tsx reads it:
malformed (res.json() at line 39 rejects), or parsed JSON from which
line 40 reads an optional features list (json.features || []) and
line 41 an optional metadata.generated (json.metadata?.generated),
either of which may be absent. -/
inductive ResponseBody where
  | malformed
  | parsed (features : Option (List EarthquakeFeature))
      (generated : Option ℤ)
deriving DecidableEq, Repr

/-- The outcome of one fetch call at App.tsx line 37: the request got
no response at all, or a response with a status code and a body. -/
inductive FetchResult where
  | noResponse
  | response (status : ℕ) (body : ResponseBody)
deriving DecidableEq, Repr

/-- res.ok (App.tsx line 38): status in the inclusive range 200-299. -/
def resOk (status : ℕ) : Bool :=
  decide (200 ≤ status) && decide (status ≤ 299)

/-- The feed client (App.tsx lines 37-41): classify the outcome of one
fetch, decoding ok responses into a FeedSnapshot, with a missing
features list decoded as [] (line 40) and a missing generation
timestamp replaced by the current time (line 41). -/
def fetchSnapshot (r : FetchResult) (now : ℤ) :
    Except FetchError FeedSnapshot :=
  match r with
  | .noResponse => .error .network
  | .response status body =>
    if resOk status then
      match body with
      | .malformed => .error .parse
      | .parsed fs g => .ok ⟨fs.getD [], g.getD now⟩
    else .error (.http status)

/-- The application state controller state (App.tsx lines 27-31):
features, minMag, loading, error, lastUpdated. -/
structure AppState where
  features : List EarthquakeFeature
  minMag : ℚ
  loading : Bool
  error : Option String
  lastUpdated : Option ℤ
deriving DecidableEq, Repr

/-- The initial controller state (App.tsx lines 27-31 initializers). -/
def initialState : AppState :=
  { features := [], minMag := 0, loading := true, error := none,
    lastUpdated := none }

/-- The start of every fetch attempt (App.tsx lines 34-35): set the
loading flag, clear the error, before the network call is issued. -/
def startFetch (s : AppState) : AppState :=
  { s with loading := true, error := none }

/-- Applying the outcome of the network call (App.tsx lines 36-47):
on success replace features and lastUpdated (lines 40-41); on any
caught failure set the error message (lines 42-44); either way clear
the loading flag (line 46, the finally block). -/
def applySnapshotResult (s : AppState) :
    Except FetchError FeedSnapshot → AppState
  | .ok snap =>
      { s with
        features := snap.features
        lastUpdated := some snap.generatedAtMs
        loading := false }
  | .error e =>
      { s with error := some e.message, loading := false }

/-- The network call followed by the outcome handling of
App.tsx lines 36-47. -/
def applyFetchResult (s : AppState) (r : FetchResult) (now : ℤ) :
    AppState :=
  applySnapshotResult s (fetchSnapshot r now)

/-- One whole run of loadData (App.tsx lines 33-48): the start phase
followed by applying the fetch outcome. loadData is the single entry
point invoked on mount, on each 5-minute timer tick (lines 50-54) and
by the retry button (line 84). -/
def loadData (s : AppState) (r : FetchResult) (now : ℤ) : AppState :=
  applyFetchResult (startFetch s) r now

/-- The threshold-control interaction (App.tsx line 73): set minMag
and nothing else. -/
def setThreshold (s : AppState) (v : ℚ) : AppState :=
  { s with minMag := v }

/-- C3: on a failing fetch (any classified failure, for instance HTTP
status 500), loadData leaves features and lastUpdated exactly as they
were, sets the error to the failure description, and clears the
loading flag. -/
theorem loadData_failure (s : AppState) (r : FetchResult) (now : ℤ)
    (e : FetchError) (h : fetchSnapshot r now = .error e) :
    (loadData s r now).features = s.features ∧
    (loadData s r now).lastUpdated = s.lastUpdated ∧
    (loadData s r now).error = some e.message ∧
    (loadData s r now).loading = false := by
  simp [loadData, applyFetchResult, h, applySnapshotResult, startFetch]

/-- Witness for C3 at a concrete failing fetch: HTTP status 500 with
some body, starting from the initial state. -/
theorem loadData_failure_witness :
    fetchSnapshot (.response 500 .malformed) 0 = .error (.http 500) ∧
    ((loadData initialState (.response 500 .malformed) 0).features =
        initialState.features ∧
      (loadData initialState (.response 500 .malformed) 0).lastUpdated =
        initialState.lastUpdated ∧
      (loadData initialState (.response 500 .malformed) 0).error =
        some (FetchError.message (.http 500)) ∧
      (loadData initialState (.response 500 .malformed) 0).loading =
        false) :=
  ⟨rfl,
    loadData_failure initialState (.response 500 .malformed) 0
      (.http 500) rfl⟩

/- Helper equations for the four outcomes of fetchSnapshot. -/

theorem fetchSnapshot_noResponse (now : ℤ) :
    fetchSnapshot .noResponse now = .error .network := rfl

theorem fetchSnapshot_badStatus (status : ℕ) (body : ResponseBody)
    (now : ℤ) (h : resOk status = false) :
    fetchSnapshot (.response status body) now = .error (.http status) := by
  simp [fetchSnapshot, h]

theorem fetchSnapshot_malformed (status : ℕ) (now : ℤ)
    (h : resOk status = true) :
    fetchSnapshot (.response status .malformed) now = .error .parse := by
  simp [fetchSnapshot, h]

theorem fetchSnapshot_parsed (status : ℕ)
    (fs : Option (List EarthquakeFeature)) (g : Option ℤ) (now : ℤ)
    (h : resOk status = true) :
    fetchSnapshot (.response status (.parsed fs g)) now =
      .ok ⟨fs.getD [], g.getD now⟩ := by
  simp [fetchSnapshot, h]

/-- C4 counterexample: a response with ok status 200 whose body is
valid JSON but is missing both required fields (no features list, no
metadata.generated) decodes to a successful empty snapshot, not a
ParseError — the claim that a body missing required fields causes a
failure is false on the code. -/
theorem fetchSnapshot_missingFields_ok :
    fetchSnapshot (.response 200 (.parsed none none)) 0 =
      .ok { features := [], generatedAtMs := 0 } := rfl

/-- C4 amended: fetchSnapshot fails with exactly one of three
classified errors and in exactly these cases — NetworkError iff no
response was received, HttpError with the status iff a response with a
non-success status was received (any body), ParseError iff an
ok-status response body was malformed JSON; an ok-status body that
parses but misses the features list or the generation timestamp
decodes with defaults and succeeds. -/
theorem fetchSnapshot_classification (r : FetchResult) (now : ℤ) :
    (fetchSnapshot r now = .error .network ↔ r = .noResponse) ∧
    (∀ st, fetchSnapshot r now = .error (.http st) ↔
      ∃ body, r = .response st body ∧ resOk st = false) ∧
    (fetchSnapshot r now = .error .parse ↔
      ∃ st, r = .response st .malformed ∧ resOk st = true) ∧
    (∀ st fs g, r = .response st (.parsed fs g) → resOk st = true →
      fetchSnapshot r now = .ok ⟨fs.getD [], g.getD now⟩) := by
  obtain _ | ⟨status, body⟩ := r
  · simp [fetchSnapshot]
  · rcases hok : resOk status with _ | _
    · obtain _ | ⟨fs, g⟩ := body <;> simp [fetchSnapshot, hok]
    · obtain _ | ⟨fs, g⟩ := body <;> simp [fetchSnapshot, hok]

/-- C6: a successful fetch whose response has an empty or missing
feature list decodes to a snapshot with an empty event sequence and
the generation timestamp of the feed, and the controller takes the
success transition: no error is set, loading is cleared. -/
theorem emptyFeatures_success (s : AppState) (status : ℕ)
    (fs : Option (List EarthquakeFeature)) (g now : ℤ)
    (hok : resOk status = true) (hfs : fs = none ∨ fs = some []) :
    fetchSnapshot (.response status (.parsed fs (some g))) now =
      .ok ⟨[], g⟩ ∧
    (loadData s (.response status (.parsed fs (some g))) now).features =
      [] ∧
    (loadData s (.response status (.parsed fs (some g))) now).error =
      none ∧
    (loadData s (.response status (.parsed fs (some g))) now).lastUpdated =
      some g ∧
    (loadData s (.response status (.parsed fs (some g))) now).loading =
      false := by
  have hempty : fs.getD [] = [] := by
    rcases hfs with h | h <;> rw [h] <;> rfl
  have hsnap : fetchSnapshot (.response status (.parsed fs (some g))) now =
      .ok ⟨[], g⟩ := by
    rw [fetchSnapshot_parsed status fs (some g) now hok, hempty]
    rfl
  refine ⟨hsnap, ?_, ?_, ?_, ?_⟩ <;>
    simp [loadData, applyFetchResult, hsnap, applySnapshotResult,
      startFetch]

/-- Witness for C6: an ok response with status 200, features [] and
generation timestamp 5, from the initial state. -/
theorem emptyFeatures_success_witness :
    fetchSnapshot (.response 200 (.parsed (some []) (some 5))) 0 =
      .ok ⟨[], 5⟩ ∧
    (loadData initialState
        (.response 200 (.parsed (some []) (some 5))) 0).features = [] ∧
    (loadData initialState
        (.response 200 (.parsed (some []) (some 5))) 0).error = none ∧
    (loadData initialState
        (.response 200 (.parsed (some []) (some 5))) 0).lastUpdated =
      some 5 ∧
    (loadData initialState
        (.response 200 (.parsed (some []) (some 5))) 0).loading =
      false :=
  emptyFeatures_success initialState 200 (some []) 5 0 rfl (Or.inr rfl)

/-- C7: every fetch attempt starts by setting the loading flag and
clearing the error message, touching nothing else, before the feed
client outcome is applied; loadData, the one entry point shared by
initialization, the 5-minute timer tick and the retry action, is that
start phase followed by applying the fetch outcome. -/
theorem startFetch_spec (s : AppState) :
    (startFetch s).loading = true ∧
    (startFetch s).error = none ∧
    (startFetch s).features = s.features ∧
    (startFetch s).lastUpdated = s.lastUpdated ∧
    (startFetch s).minMag = s.minMag ∧
    ∀ r now, loadData s r now = applyFetchResult (startFetch s) r now :=
  ⟨rfl, rfl, rfl, rfl, rfl, fun _ _ => rfl⟩

/-- C8: a threshold-control interaction with value v updates minMag to
v and changes nothing else: features, lastUpdated, loading and error
are untouched, and no fetch outcome is involved. -/
theorem setThreshold_spec (s : AppState) (v : ℚ) :
    (setThreshold s v).minMag = v ∧
    (setThreshold s v).features = s.features ∧
    (setThreshold s v).lastUpdated = s.lastUpdated ∧
    (setThreshold s v).loading = s.loading ∧
    (setThreshold s v).error = s.error :=
  ⟨rfl, rfl, rfl, rfl, rfl⟩

/-- C10: a successful fetch whose body lacks metadata.generated does
not fail and does not leave lastUpdated unset: lastUpdated falls back
to the current time, the features decode as usual, no error is set. -/
theorem missingGenerated_fallback (s : AppState) (status : ℕ)
    (fs : Option (List EarthquakeFeature)) (now : ℤ)
    (hok : resOk status = true) :
    (loadData s (.response status (.parsed fs none)) now).lastUpdated =
      some now ∧
    (loadData s (.response status (.parsed fs none)) now).error =
      none ∧
    (loadData s (.response status (.parsed fs none)) now).loading =
      false ∧
    (loadData s (.response status (.parsed fs none)) now).features =
      fs.getD [] := by
  have hsnap := fetchSnapshot_parsed status fs none now hok
  refine ⟨?_, ?_, ?_, ?_⟩ <;>
    simp [loadData, applyFetchResult, hsnap, applySnapshotResult,
      startFetch]

/-- Witness for C10: an ok response with status 204, one whose body
parses with no generation timestamp, applied at current time 42. -/
theorem missingGenerated_fallback_witness :
    (loadData initialState (.response 204 (.parsed (some []) none))
        42).lastUpdated = some 42 ∧
    (loadData initialState (.response 204 (.parsed (some []) none))
        42).error = none ∧
    (loadData initialState (.response 204 (.parsed (some []) none))
        42).loading = false ∧
    (loadData initialState (.response 204 (.parsed (some []) none))
        42).features = (some ([] : List EarthquakeFeature)).getD [] :=
  missingGenerated_fallback initialState 204 (some []) 42 rfl

/-- A sample event used to evaluate the embedding on concrete data. -/
def sampleEvent (i : String) (m : Option ℚ) : EarthquakeFeature :=
  { id := i
    properties := { mag := m, place := none, time := 0, url := "" }
    geometry := { longitude := 0, latitude := 0, depth := 0 } }

example :
    filtered
      [sampleEvent "a" (some 5), sampleEvent "b" none,
        sampleEvent "c" (some 1)] 2 =
      [sampleEvent "a" (some 5)] := by decide

example : passesThreshold none 0 = false := by
  norm_num [passesThreshold, magOrNegInf]

example : passesThreshold (some 0) 0 = true := by
  norm_num [passesThreshold, magOrNegInf]

example : magToColor (some 5) = "#d7301f" := by
  norm_num [magToColor]

example : radiusFor none = 3 := by
  norm_num [radiusFor]

end EqViz
